import Mathlib

/-!
Verification of the `nataly` CLI adapter (`run.py`).

The program is a single linear pipeline: parse and validate command-line
arguments, resolve an ephemeris path and orb configuration, delegate chart
computation to the external `nataly` library (`NatalChart`,
`create_orb_config`, `to_utc`), shape the result into a summary record, and
render it as text and/or JSON.

This file gives a shallow embedding of that pipeline.  The external library
is out of the repository: it is represented by an abstract interface (`Lib`)
whose operations may either return a value or raise (modelled as `Except`),
and by an abstract chart object (`NatalChartM`) exposing exactly the
attributes the adapter reads.  Everything in the repository itself
(`_parse_args`, `_resolve_ephe_path`, `_safe_get_body`, `_build_chart`,
`_to_summary`, `_print_text`, `_to_jsonable`, `main`) is translated
definition by definition.

Modelling conventions:
* Python floats are represented by `Rat`; the adapter never computes with
  them, it only carries them through.  Decimal rendering of numbers by
  `str()` / `json.dumps` is abstracted by a single shared function `fmtRat`.
* Python strings are `String`; `str.strip()` is `pyStrip` (restricted to the
  ASCII whitespace characters; non-ASCII Unicode whitespace is not
  modelled).  Likewise the regex class `\d` is modelled as the ASCII digits
  (Python's `re` would additionally accept non-ASCII Unicode decimal
  digits).
* `re.match` with the anchored pattern `^...$` matches the whole string, or
  the whole string minus a single trailing newline (Python's `$` also
  matches just before a terminating newline); `tzRegexMatch` models both.
* `argparse` rejection (unknown `--format` choice) calls `parser.error`,
  which raises `SystemExit(2)`.  `SystemExit` derives from `BaseException`,
  not `Exception`, so the `except Exception` handler in `main` does NOT
  catch it: it propagates to the caller.  `runMain` therefore has a
  distinguished `sysExit` outcome.  (The usage message argparse prints on
  that path, and the conversion failures of `type=float` arguments — which
  take value positions we model as already-converted `Rat`s — are not
  modelled.)
* Printed standard-output/standard-error text is modelled as lists of lines.
* Values of unknown dynamic type (the element/modality distributions, typed
  `Any` in the adapter) are modelled by `PyVal`: a number, a string, `None`,
  or a dict with string keys (a finite ordered association sequence, as a
  Python dict's items view presents it).
-/

/-! ### Python string primitives -/

/-- The ASCII whitespace characters stripped by Python's `str.strip()`. -/
def pyIsSpace (c : Char) : Bool :=
  c == ' ' || c == '\t' || c == '\n' || c == '\r' || c == '\x0b' || c == '\x0c'

/-- Python `str.strip()`: remove leading and trailing whitespace. -/
def pyStrip (s : String) : String :=
  ⟨((s.data.dropWhile pyIsSpace).reverse.dropWhile pyIsSpace).reverse⟩

/-- ASCII decimal digit, modelling the regex class `\d`. -/
def isAsciiDigit (c : Char) : Bool :=
  decide ('0' ≤ c ∧ c ≤ '9')

/-! ### The timezone pattern `_TZ_RE = ^[+-](?:0\d|1\d|2[0-3]):[0-5]\d$` -/

/-- Exact match of `[+-](?:0\d|1\d|2[0-3]):[0-5]\d` against a whole
character sequence: a sign, a two-digit hour `00`–`23`, a colon, and a
two-digit minute `00`–`59`. -/
def tzCore : List Char → Bool
  | [sgn, h1, h2, sep, m1, m2] =>
    (sgn == '+' || sgn == '-') &&
    (((h1 == '0' || h1 == '1') && isAsciiDigit h2) ||
      (h1 == '2' && decide ('0' ≤ h2 ∧ h2 ≤ '3'))) &&
    (sep == ':') &&
    decide ('0' ≤ m1 ∧ m1 ≤ '5') && isAsciiDigit m2
  | _ => false

/-- `_TZ_RE.match(s)` succeeds: the anchored pattern matches the whole
string, or the whole string up to a single terminating newline (Python's
`$` also matches before a trailing `\n`). -/
def tzRegexMatch (s : String) : Bool :=
  tzCore s.data ||
    (match s.data.getLast? with
     | some c => c == '\n' && tzCore s.data.dropLast
     | none => false)

/-! ### Dynamic values (the `Any`-typed distributions) -/

mutual
/-- A dynamic Python value as the adapter may receive it from the library:
a number, a string, `None`, or a string-keyed dict. -/
inductive PyVal where
  | num (q : Rat)
  | str (s : String)
  | noneV
  | dict (entries : PyEntries)

/-- The ordered item sequence of a Python dict (keys assumed distinct). -/
inductive PyEntries where
  | nil
  | cons (k : String) (v : PyVal) (rest : PyEntries)
end

/-- Items of a dict as a list of key/value pairs. -/
def PyEntries.toList : PyEntries → List (String × PyVal)
  | .nil => []
  | .cons k v rest => (k, v) :: rest.toList

/-- Dict lookup (`d[k]` / `k in d`); keys are assumed distinct. -/
def PyEntries.lookup : PyEntries → String → Option PyVal
  | .nil, _ => none
  | .cons k v rest, key => if k == key then some v else rest.lookup key

/-- Abstraction of Python's decimal rendering of a number by `str()` and
`json.dumps`; both renderings share this single function. -/
def fmtRat (q : Rat) : String := toString q

mutual
/-- Python `repr()` on a dynamic value. -/
def pyRepr : PyVal → String
  | .num q => fmtRat q
  | .str s => "\x27" ++ s ++ "\x27"
  | .noneV => "None"
  | .dict es => "\x7b" ++ pyEntriesRepr es ++ "\x7d"

/-- `repr()` of a dict's comma-separated items. -/
def pyEntriesRepr : PyEntries → String
  | .nil => ""
  | .cons k v .nil => "\x27" ++ k ++ "\x27: " ++ pyRepr v
  | .cons k v (.cons k2 v2 rest) =>
    "\x27" ++ k ++ "\x27: " ++ pyRepr v ++ ", " ++ pyEntriesRepr (.cons k2 v2 rest)
end

/-- Python `str()` on a dynamic value (equal to `repr()` except on
strings, which it returns unquoted). -/
def pyStr : PyVal → String
  | .num q => fmtRat q
  | .str s => s
  | .noneV => "None"
  | .dict es => pyRepr (.dict es)

/-! ### The frozen dataclasses of `run.py` -/

/-- `PluginInput`: the validated invocation record. -/
structure PluginInput where
  person : String
  birth : String
  tz : String
  lat : Rat
  lon : Rat
  house_system : String
  ephe_path : Option String
  output_format : String
deriving DecidableEq

/-- `AspectOut`. -/
structure AspectOut where
  body1 : String
  symbol : String
  body2 : String
  orb : String
deriving DecidableEq

/-- `BodyOut`. -/
structure BodyOut where
  name : String
  signed_dms : String
  house : Option Int
  declination_dms : Option String
  absolute_dms : Option String
deriving DecidableEq

/-- `HouseOut`. -/
structure HouseOut where
  id : Int
  dms : String
  sign : String
  declination_dms : Option String
  absolute_dms : Option String
deriving DecidableEq

/-- The `location` dict `\x7b"lat": lat, "lon": lon\x7d` of the summary. -/
structure LocationOut where
  lat : Rat
  lon : Rat
deriving DecidableEq

/-- `ChartSummaryOut`: the output summary record. -/
structure ChartSummaryOut where
  person : String
  dt_utc_iso : String
  location : LocationOut
  sun : Option BodyOut
  moon : Option BodyOut
  aspects : List AspectOut
  element_distribution : PyVal
  modality_distribution : PyVal
  houses : List HouseOut

/-! ### Argument parsing (`_parse_args`) -/

/-- An invocation's command line, after tokenisation: the values given to
each flag.  The required flags (`--person`, `--birth`, `--tz`, `--lat`,
`--lon`) are taken as present and, for the two `type=float` flags, already
converted; optional flags are `Option`s (`none` = flag omitted). -/
structure Cmdline where
  person : String
  birth : String
  tz : String
  lat : Rat
  lon : Rat
  house_system : Option String
  ephe_path : Option String
  format : Option String

/-- The argparse namespace `ns` after a successful `parse_args`. -/
structure RawArgs where
  person : String
  birth : String
  tz : String
  lat : Rat
  lon : Rat
  house_system : String
  ephe_path : Option String
  format : String
deriving DecidableEq

/-- Result of `parser.parse_args`: a namespace, or `SystemExit(code)`
raised by `parser.error`. -/
inductive ArgparseOutcome where
  | ok (a : RawArgs)
  | sysExit (code : Nat)

/-- The `choices` list of `--format`. -/
def formatChoices : List String := ["text", "json", "both"]

/-- `parser.parse_args(argv)`: apply defaults (`--house-system` defaults to
`"Placidus"`, `--format` to `"text"`) and enforce the `--format` choices,
rejecting with `SystemExit(2)` otherwise. -/
def argparse (c : Cmdline) : ArgparseOutcome :=
  let fmt := c.format.getD "text"
  if fmt ∈ formatChoices then
    .ok { person := c.person, birth := c.birth, tz := c.tz,
          lat := c.lat, lon := c.lon,
          house_system := c.house_system.getD "Placidus",
          ephe_path := c.ephe_path, format := fmt }
  else
    .sysExit 2

/-- The `ValueError` message raised for a malformed timezone. -/
def tzErrorMsg (tz : String) : String :=
  "Invalid --tz value: " ++ tz ++ ". Expected format like +02:00"

/-- The validation part of `_parse_args`, applied to the argparse
namespace: strip `--tz`, check it against `_TZ_RE`, and build the
`PluginInput` (stripping the other string fields; a truthy `ephe_path` is
stripped, a falsy one becomes `None`). -/
def parseArgsChecked (a : RawArgs) : Except String PluginInput :=
  let tz := pyStrip a.tz
  if tzRegexMatch tz then
    .ok { person := pyStrip a.person, birth := pyStrip a.birth, tz := tz,
          lat := a.lat, lon := a.lon,
          house_system := pyStrip a.house_system,
          ephe_path := match a.ephe_path with
            | some s => if s == "" then none else some (pyStrip s)
            | none => none,
          output_format := a.format }
  else
    .error (tzErrorMsg tz)

/-! ### Ephemeris path resolution (`_resolve_ephe_path`) -/

/-- The process environment and filesystem facts `_resolve_ephe_path`
consults: the `NATALY_EPHE_PATH` variable, and whether the `ephe`
directory next to the script exists and is a directory (with its path
string). -/
structure FsEnv where
  natalyEphePathVar : Option String
  epheDirIsDir : Bool
  epheDirStr : String

/-- The fallback chain of `_resolve_ephe_path` after a falsy explicit
argument: a set, non-blank `NATALY_EPHE_PATH` (stripped), else the local
`ephe` directory when present, else `None`. -/
def resolveEpheFallback (fs : FsEnv) : Option String :=
  match fs.natalyEphePathVar with
  | some v =>
    if v ≠ "" ∧ pyStrip v ≠ "" then some (pyStrip v)
    else if fs.epheDirIsDir then some fs.epheDirStr else none
  | none => if fs.epheDirIsDir then some fs.epheDirStr else none

/-- `_resolve_ephe_path(explicit)`: a truthy explicit argument wins,
otherwise fall back to the environment variable and the local directory. -/
def resolveEphePath (fs : FsEnv) (explicit : Option String) : Option String :=
  match explicit with
  | some s => if s ≠ "" then some s else resolveEpheFallback fs
  | none => resolveEpheFallback fs

/-! ### The external chart library -/

/-- A body object as returned by `chart.get_body_by_name`: the attributes
the adapter reads.  `houseAttr = none` models `int(getattr(body, "house"))`
raising (attribute missing or not convertible). -/
structure PyBody where
  name : String
  houseAttr : Option Int
  signedDms : String
  dms : String
  declinationDms : Option String
  absoluteDms : Option String

/-- An aspect object: the attribute chains the adapter reads (a missing
attribute reads as the `getattr` default `""`, folded into the field). -/
structure PyAspect where
  body1Name : String
  body2Name : String
  symbol : String
  orbStr : String

/-- A house object: the attributes the adapter reads.  `id` is taken to be
an int, per the library's contract. -/
structure PyHouse where
  id : Int
  dms : String
  signName : String
  declinationDms : Option String
  absoluteDms : Option String

/-- A `NatalChart` object: `get_body_by_name` (`none` models it raising),
and the `aspects`, `houses` and distribution attributes (a chart lacking
the attribute is a chart with the `getattr` default). -/
structure NatalChartM where
  getBody : String → Option PyBody
  aspects : List PyAspect
  houses : List PyHouse
  element_distribution : PyVal
  modality_distribution : PyVal

/-- The external library interface: `to_utc` (returning the UTC datetime,
represented by its `isoformat()` string), `create_orb_config` (the orb
configuration is opaque to the adapter) and the `NatalChart` constructor
(person, UTC datetime, lat, lon, orb config, ephemeris path).  Each
operation may raise; `.error msg` carries `str(exc)`. -/
structure Lib where
  toUtc : String → String → Except String String
  createOrbConfig : String → Except String String
  mkChart : String → String → Rat → Rat → String → Option String →
    Except String NatalChartM

/-! ### `_safe_get_body`, `_build_chart`, `_to_summary` -/

/-- `_safe_get_body(chart, name)`: `None` when the lookup raises; otherwise
a `BodyOut` with `signed_dms` falling back to `dms` when empty, and `house`
`None` when the int conversion fails. -/
def safeGetBody (chart : NatalChartM) (name : String) : Option BodyOut :=
  match chart.getBody name with
  | none => none
  | some body =>
    some { name := body.name,
           signed_dms := if body.signedDms == "" then body.dms else body.signedDms,
           house := body.houseAttr,
           declination_dms := body.declinationDms,
           absolute_dms := body.absoluteDms }

/-- `_build_chart(inp)`: convert the birth timestamp to UTC, resolve the
ephemeris path, build the orb configuration from the house-system name, and
construct the chart.  Any raising step aborts the pipeline. -/
def buildChart (lib : Lib) (fs : FsEnv) (inp : PluginInput) :
    Except String (NatalChartM × String) :=
  match lib.toUtc inp.birth inp.tz with
  | .error e => .error e
  | .ok dtUtcIso =>
    match lib.createOrbConfig inp.house_system with
    | .error e => .error e
    | .ok orbCfg =>
      match lib.mkChart inp.person dtUtcIso inp.lat inp.lon orbCfg
          (resolveEphePath fs inp.ephe_path) with
      | .error e => .error e
      | .ok chart => .ok (chart, dtUtcIso)

/-- `_to_summary(chart, inp, dt_utc_iso)`. -/
def toSummary (chart : NatalChartM) (inp : PluginInput) (dtUtcIso : String) :
    ChartSummaryOut :=
  { person := inp.person,
    dt_utc_iso := dtUtcIso,
    location := { lat := inp.lat, lon := inp.lon },
    sun := safeGetBody chart "Sun",
    moon := safeGetBody chart "Moon",
    aspects := chart.aspects.map (fun a =>
      { body1 := a.body1Name, symbol := a.symbol, body2 := a.body2Name,
        orb := a.orbStr }),
    element_distribution := chart.element_distribution,
    modality_distribution := chart.modality_distribution,
    houses := chart.houses.map (fun h =>
      { id := h.id, dms := h.dms, sign := h.signName,
        declination_dms := h.declinationDms,
        absolute_dms := h.absoluteDms }) }

/-! ### Text rendering (`_print_text`) -/

/-- `_get_sort_score` for a dict value: the first of the keys `count`,
`value`, `score`, `weight` that is present with a numeric value, else 0. -/
def dictScore (es : PyEntries) : Rat :=
  match es.lookup "count" with
  | some (.num q) => q
  | _ =>
    match es.lookup "value" with
    | some (.num q) => q
    | _ =>
      match es.lookup "score" with
      | some (.num q) => q
      | _ =>
        match es.lookup "weight" with
        | some (.num q) => q
        | _ => 0

/-- `_get_sort_score(val)`: numbers sort by value, dicts by `dictScore`,
everything else as 0. -/
def getSortScore : PyVal → Rat
  | .num q => q
  | .dict es => dictScore es
  | _ => 0

/-- `_fmt_val(val)`: a dict with a `count` key renders as `str` of that
value, everything else as `str` of itself. -/
def fmtVal : PyVal → String
  | .dict es =>
    (match es.lookup "count" with
     | some v => pyStr v
     | none => pyStr (.dict es))
  | v => pyStr v

/-- Stable insertion (descending by score) used by `sortDescByScore`: an
element is placed before the first element of no greater score, so
equal-score elements keep their original relative order, as Python's stable
`sorted(..., reverse=True)` does. -/
def insertDesc (x : String × PyVal) : List (String × PyVal) → List (String × PyVal)
  | [] => [x]
  | y :: ys =>
    if getSortScore x.2 < getSortScore y.2 then y :: insertDesc x ys
    else x :: y :: ys

/-- `sorted(dist.items(), key=score, reverse=True)` (stable). -/
def sortDescByScore : List (String × PyVal) → List (String × PyVal)
  | [] => []
  | x :: xs => insertDesc x (sortDescByScore xs)

/-- The left-justification `f"..:<10"` applied to a distribution label. -/
def padTo10 (label : String) : String :=
  label ++ String.mk (List.replicate (10 - label.length) ' ')

/-- `_print_dist(label, dist)`: one line; a dict-like value is sorted by
score and comma-formatted, anything else is `str`-ed. -/
def printDistLine (label : String) (dist : PyVal) : String :=
  match dist with
  | .dict es =>
    "  " ++ padTo10 label ++ " " ++
      String.intercalate ", "
        ((sortDescByScore es.toList).map (fun kv => kv.1 ++ ": " ++ fmtVal kv.2))
  | d => "  " ++ padTo10 label ++ " " ++ pyStr d

/-- The one or two lines printed for an optional sun/moon placement (the
declination line is printed only for a truthy, i.e. non-empty, value). -/
def bodyTextLines (label : String) (b : Option BodyOut) : List String :=
  match b with
  | none => []
  | some body =>
    let houseStr := match body.house with
      | some n => "House " ++ toString n
      | none => "House ?"
    let l1 := label ++ body.signed_dms ++ " (" ++ houseStr ++ ")"
    match body.declination_dms with
    | some d => if d == "" then [l1] else [l1, "      decl: " ++ d]
    | none => [l1]

/-- One aspect line. -/
def fmtAspectLine (a : AspectOut) : String :=
  "  " ++ a.body1 ++ " " ++ a.symbol ++ " " ++ a.body2 ++ " (orb: " ++ a.orb ++ ")"

/-- One house line (the declination suffix only for a truthy value). -/
def fmtHouseLine (h : HouseOut) : String :=
  let base := "  House " ++ toString h.id ++ ": " ++ h.dms ++ " " ++ h.sign
  match h.declination_dms with
  | some d => if d == "" then base else base ++ " (decl: " ++ d ++ ")"
  | none => base

/-- The person / UTC / location header lines and the following blank. -/
def textHeader (s : ChartSummaryOut) : List String :=
  ["Person: " ++ s.person,
   "UTC:    " ++ s.dt_utc_iso,
   "Loc:    lat=" ++ fmtRat s.location.lat ++ ", lon=" ++ fmtRat s.location.lon,
   ""]

/-- The sun and moon placement lines. -/
def textBodySection (s : ChartSummaryOut) : List String :=
  bodyTextLines "Sun:  " s.sun ++ bodyTextLines "Moon: " s.moon

/-- The distributions block. -/
def textDistSection (s : ChartSummaryOut) : List String :=
  ["", "Distributions",
   printDistLine "element" s.element_distribution,
   printDistLine "modality" s.modality_distribution]

/-- The aspects block: at most the first 50 aspects. -/
def textAspectSection (s : ChartSummaryOut) : List String :=
  ["", "Aspects"] ++ (s.aspects.take 50).map fmtAspectLine

/-- The houses block. -/
def textHouseSection (s : ChartSummaryOut) : List String :=
  ["", "Houses"] ++ s.houses.map fmtHouseLine

/-- `_print_text(summary)`: every line printed to standard output, in
order. -/
def renderText (s : ChartSummaryOut) : List String :=
  textHeader s ++ textBodySection s ++ textDistSection s ++
    textAspectSection s ++ textHouseSection s

/-! ### JSON rendering (`_to_jsonable` / `json.dumps`) -/

/-- A JSON value (the structured payload; serialisation to characters is
not modelled). -/
inductive Json where
  | str (s : String)
  | num (q : Rat)
  | null
  | arr (xs : List Json)
  | obj (fields : List (String × Json))

mutual
/-- A dynamic value as `json.dumps` serialises it. -/
def pyValToJson : PyVal → Json
  | .num q => .num q
  | .str s => .str s
  | .noneV => .null
  | .dict es => .obj (pyEntriesToJson es)

/-- Dict items as JSON object fields, in order. -/
def pyEntriesToJson : PyEntries → List (String × Json)
  | .nil => []
  | .cons k v rest => (k, pyValToJson v) :: pyEntriesToJson rest
end

/-- An optional string as JSON (`None` serialises as `null`). -/
def optStrJson : Option String → Json
  | some s => .str s
  | none => .null

/-- `asdict` of a `BodyOut`, as serialised. -/
def bodyOutToJson (b : BodyOut) : Json :=
  .obj [("name", .str b.name),
        ("signed_dms", .str b.signed_dms),
        ("house", match b.house with | some n => .num (n : Rat) | none => .null),
        ("declination_dms", optStrJson b.declination_dms),
        ("absolute_dms", optStrJson b.absolute_dms)]

/-- An optional placement as JSON. -/
def optBodyToJson : Option BodyOut → Json
  | some b => bodyOutToJson b
  | none => .null

/-- `asdict` of an `AspectOut`, as serialised. -/
def aspectOutToJson (a : AspectOut) : Json :=
  .obj [("body1", .str a.body1), ("symbol", .str a.symbol),
        ("body2", .str a.body2), ("orb", .str a.orb)]

/-- `asdict` of a `HouseOut`, as serialised. -/
def houseOutToJson (h : HouseOut) : Json :=
  .obj [("id", .num (h.id : Rat)), ("dms", .str h.dms), ("sign", .str h.sign),
        ("declination_dms", optStrJson h.declination_dms),
        ("absolute_dms", optStrJson h.absolute_dms)]

/-- `_to_jsonable(summary)` followed by serialisation: `asdict` turns the
frozen dataclass into a dict whose keys are the field names in declaration
order, recursing into the nested dataclasses and lists. -/
def toJsonable (s : ChartSummaryOut) : Json :=
  .obj [("person", .str s.person),
        ("dt_utc_iso", .str s.dt_utc_iso),
        ("location", .obj [("lat", .num s.location.lat), ("lon", .num s.location.lon)]),
        ("sun", optBodyToJson s.sun),
        ("moon", optBodyToJson s.moon),
        ("aspects", .arr (s.aspects.map aspectOutToJson)),
        ("element_distribution", pyValToJson s.element_distribution),
        ("modality_distribution", pyValToJson s.modality_distribution),
        ("houses", .arr (s.houses.map houseOutToJson))]

/-- The key list of a JSON object (empty for non-objects). -/
def jsonKeys : Json → List String
  | .obj fs => fs.map Prod.fst
  | _ => []

/-- Field lookup in a JSON object. -/
def jsonField (j : Json) (key : String) : Option Json :=
  match j with
  | .obj fs => (fs.find? (fun kv => kv.1 == key)).map Prod.snd
  | _ => none

/-! ### `main` -/

/-- What a terminating `main` produced: its return value (the process exit
code), the text lines and the JSON payload printed to standard output, and
the lines printed to standard error. -/
structure MainResult where
  exitCode : Nat
  stdoutText : List String
  stdoutJson : Option Json
  stderrLines : List String

/-- Outcome of calling `main(argv)`: either it returns an exit code (with
its output), or `SystemExit` raised by argparse propagates through it. -/
inductive MainOutcome where
  | exited (r : MainResult)
  | sysExit (code : Nat)

/-- The single error line `main` prints to standard error. -/
def pluginErrLine (msg : String) : String :=
  "[nataly plugin] Error: " ++ msg

/-- `main(argv)`: parse and validate, build the chart, summarise, render
text and/or JSON per `--format`; any `Exception` yields one line on
standard error and return value 1, while argparse's `SystemExit`
propagates. -/
def runMain (lib : Lib) (fs : FsEnv) (c : Cmdline) : MainOutcome :=
  match argparse c with
  | .sysExit code => .sysExit code
  | .ok raw =>
    match parseArgsChecked raw with
    | .error msg => .exited ⟨1, [], none, [pluginErrLine msg]⟩
    | .ok inp =>
      match buildChart lib fs inp with
      | .error msg => .exited ⟨1, [], none, [pluginErrLine msg]⟩
      | .ok (chart, dtUtcIso) =>
        let summary := toSummary chart inp dtUtcIso
        .exited ⟨0,
          if inp.output_format == "text" || inp.output_format == "both"
            then renderText summary else [],
          if inp.output_format == "json" || inp.output_format == "both"
            then some (toJsonable summary) else none,
          []⟩

/-! ### Concrete fixtures (library behaviours, charts, command lines) -/

/-- A chart on which every body lookup raises. -/
def emptyChart : NatalChartM :=
  { getBody := fun _ => none, aspects := [], houses := [],
    element_distribution := .noneV, modality_distribution := .noneV }

/-- A sample Sun body. -/
def sunBody : PyBody :=
  { name := "Sun", houseAttr := some 10, signedDms := "10 Tau 44",
    dms := "40 44", declinationDms := some "+14 53", absoluteDms := none }

/-- A sample Moon body (no `signed_dms`, no house int). -/
def moonBody : PyBody :=
  { name := "Moon", houseAttr := none, signedDms := "", dms := "102 11",
    declinationDms := none, absoluteDms := none }

/-- A sample aspect. -/
def sampleAspect : PyAspect :=
  { body1Name := "Sun", body2Name := "Moon", symbol := "sq", orbStr := "1 27" }

/-- A sample house. -/
def sampleHouse : PyHouse :=
  { id := 1, dms := "15 00", signName := "Leo", declinationDms := none,
    absoluteDms := some "135 00" }

/-- A sample chart with both luminaries, one aspect and one house. -/
def sampleChart : NatalChartM :=
  { getBody := fun n =>
      if n == "Sun" then some sunBody
      else if n == "Moon" then some moonBody else none,
    aspects := [sampleAspect], houses := [sampleHouse],
    element_distribution := .dict (.cons "Fire" (.num 3) (.cons "Earth" (.num 2) .nil)),
    modality_distribution := .num 0 }

/-- A sample UTC timestamp string. -/
def isoSample : String := "1990-05-01T10:30:00+00:00"

/-- A library on which every call succeeds, producing `sampleChart`. -/
def okLib : Lib :=
  { toUtc := fun _ _ => .ok isoSample,
    createOrbConfig := fun _ => .ok "orb",
    mkChart := fun _ _ _ _ _ _ => .ok emptyChart }

/-- A library whose chart supplies no body at all. -/
def noBodyLib : Lib := okLib

/-- A library producing the richer `sampleChart`. -/
def sampleLib : Lib :=
  { toUtc := fun _ _ => .ok isoSample,
    createOrbConfig := fun _ => .ok "orb",
    mkChart := fun _ _ _ _ _ _ => .ok sampleChart }

/-- A library whose orb-configuration constructor raises, echoing the
house-system name it was given. -/
def orbEchoLib : Lib :=
  { toUtc := fun _ _ => .ok isoSample,
    createOrbConfig := fun h => .error h,
    mkChart := fun _ _ _ _ _ _ => .error "unreached" }

/-- A library whose chart constructor raises, echoing the ephemeris path it
was given. -/
def epheEchoLib : Lib :=
  { toUtc := fun _ _ => .ok isoSample,
    createOrbConfig := fun _ => .ok "orb",
    mkChart := fun _ _ _ _ _ ephe =>
      .error (match ephe with | some p => p | none => "no-path") }

/-- No environment variable, no local `ephe` directory. -/
def fsNone : FsEnv :=
  { natalyEphePathVar := none, epheDirIsDir := false, epheDirStr := "/plugin/ephe" }

/-- `NATALY_EPHE_PATH=/env/ephe`, no local directory. -/
def fsWithEnv : FsEnv :=
  { natalyEphePathVar := some "/env/ephe", epheDirIsDir := false,
    epheDirStr := "/plugin/ephe" }

/-- A padded environment value and an existing local directory. -/
def fsPadEnv : FsEnv :=
  { natalyEphePathVar := some "  /w  ", epheDirIsDir := true,
    epheDirStr := "/plugin/ephe" }

/-- A well-formed invocation asking for JSON output. -/
def cmdOkJson : Cmdline :=
  { person := "Ada", birth := "1990-05-01 12:30", tz := "+02:00",
    lat := 41, lon := 29, house_system := none, ephe_path := none,
    format := some "json" }

/-- A well-formed invocation asking for both renderings. -/
def cmdOkBoth : Cmdline :=
  { person := "Ada", birth := "1990-05-01 12:30", tz := "+02:00",
    lat := 41, lon := 29, house_system := none, ephe_path := none,
    format := some "both" }

/-- A well-formed invocation with every optional flag omitted. -/
def cmdOkText : Cmdline :=
  { person := "Ada", birth := "1990-05-01 12:30", tz := "+02:00",
    lat := 41, lon := 29, house_system := none, ephe_path := none,
    format := none }

/-- `--tz " +02:00"`: a raw value that does NOT match `_TZ_RE`. -/
def cmdTzSpace : Cmdline :=
  { person := "Ada", birth := "1990-05-01 12:30", tz := " +02:00",
    lat := 41, lon := 29, house_system := none, ephe_path := none,
    format := none }

/-- `--tz oops`: malformed even after stripping. -/
def cmdTzBad : Cmdline :=
  { person := "Ada", birth := "1990-05-01 12:30", tz := "oops",
    lat := 41, lon := 29, house_system := none, ephe_path := none,
    format := none }

/-- `--format xml`: not among the `--format` choices. -/
def cmdBadFormat : Cmdline :=
  { person := "Ada", birth := "1990-05-01 12:30", tz := "+02:00",
    lat := 41, lon := 29, house_system := none, ephe_path := none,
    format := some "xml" }

/-- The argparse namespace for `cmdOkJson`. -/
def rawOkJson : RawArgs :=
  { person := "Ada", birth := "1990-05-01 12:30", tz := "+02:00",
    lat := 41, lon := 29, house_system := "Placidus", ephe_path := none,
    format := "json" }

/-- The argparse namespace for `cmdTzBad`. -/
def rawTzBad : RawArgs :=
  { person := "Ada", birth := "1990-05-01 12:30", tz := "oops",
    lat := 41, lon := 29, house_system := "Placidus", ephe_path := none,
    format := "text" }

/-- An argparse namespace with a whitespace-padded `--tz`. -/
def rawTzPad : RawArgs :=
  { person := "Ada", birth := "1990-05-01 12:30", tz := "  +02:00  ",
    lat := 41, lon := 29, house_system := "Placidus", ephe_path := none,
    format := "text" }

/-- An argparse namespace with a whitespace-only `--ephe-path`. -/
def rawBlankEphe : RawArgs :=
  { person := "Ada", birth := "1990-05-01 12:30", tz := "+02:00",
    lat := 41, lon := 29, house_system := "Placidus", ephe_path := some " ",
    format := "json" }

/-- The validated input for `cmdOkJson`. -/
def inpOkJson : PluginInput :=
  { person := "Ada", birth := "1990-05-01 12:30", tz := "+02:00",
    lat := 41, lon := 29, house_system := "Placidus", ephe_path := none,
    output_format := "json" }

/-- The validated input for `rawBlankEphe`: note `ephe_path = some ""`. -/
def inpBlankEphe : PluginInput :=
  { person := "Ada", birth := "1990-05-01 12:30", tz := "+02:00",
    lat := 41, lon := 29, house_system := "Placidus", ephe_path := some "",
    output_format := "json" }

/-- The summary built from `sampleChart` and `cmdOkJson`. -/
def sampleSummary : ChartSummaryOut := toSummary sampleChart inpOkJson isoSample

/-- A summary carrying 51 aspects. -/
def summary51 : ChartSummaryOut :=
  { person := "P", dt_utc_iso := isoSample, location := { lat := 0, lon := 0 },
    sun := none, moon := none,
    aspects := List.replicate 51
      { body1 := "Sun", symbol := "sq", body2 := "Moon", orb := "1" },
    element_distribution := .noneV, modality_distribution := .noneV,
    houses := [] }

/-! ### Shared inversion lemmas about the pipeline -/

/-- Inversion for a returning `main`: it either failed validation, failed in
the library, or completed, and in each case its result is determined. -/
theorem runMain_exited_inv (lib : Lib) (fs : FsEnv) (c : Cmdline) (r : MainResult)
    (h : runMain lib fs c = .exited r) :
    (∃ raw msg, argparse c = .ok raw ∧ parseArgsChecked raw = .error msg ∧
      r = ⟨1, [], none, [pluginErrLine msg]⟩) ∨
    (∃ raw inp msg, argparse c = .ok raw ∧ parseArgsChecked raw = .ok inp ∧
      buildChart lib fs inp = .error msg ∧
      r = ⟨1, [], none, [pluginErrLine msg]⟩) ∨
    (∃ raw inp chart iso, argparse c = .ok raw ∧ parseArgsChecked raw = .ok inp ∧
      buildChart lib fs inp = .ok (chart, iso) ∧
      r = ⟨0,
        if inp.output_format == "text" || inp.output_format == "both"
          then renderText (toSummary chart inp iso) else [],
        if inp.output_format == "json" || inp.output_format == "both"
          then some (toJsonable (toSummary chart inp iso)) else none,
        []⟩) := by
  unfold runMain at h
  rcases hA : argparse c with raw | code
  · simp only [hA] at h
    rcases hP : parseArgsChecked raw with msg | inp
    · simp only [hP] at h
      cases h
      exact Or.inl ⟨raw, msg, rfl, hP, rfl⟩
    · simp only [hP] at h
      rcases hB : buildChart lib fs inp with msg | pr
      · simp only [hB] at h
        cases h
        exact Or.inr (Or.inl ⟨raw, inp, msg, rfl, hP, hB, rfl⟩)
      · simp only [hB] at h
        cases h
        exact Or.inr (Or.inr ⟨raw, inp, pr.1, pr.2, rfl, hP, hB, rfl⟩)
  · simp only [hA] at h
    nomatch h

/-- A fully successful pipeline determines `main`'s outcome. -/
theorem runMain_success_eq (lib : Lib) (fs : FsEnv) (c : Cmdline) (raw : RawArgs)
    (inp : PluginInput) (chart : NatalChartM) (iso : String)
    (h1 : argparse c = .ok raw) (h2 : parseArgsChecked raw = .ok inp)
    (h3 : buildChart lib fs inp = .ok (chart, iso)) :
    runMain lib fs c = .exited ⟨0,
      if inp.output_format == "text" || inp.output_format == "both"
        then renderText (toSummary chart inp iso) else [],
      if inp.output_format == "json" || inp.output_format == "both"
        then some (toJsonable (toSummary chart inp iso)) else none,
      []⟩ := by
  simp only [runMain, h1, h2, h3]

/-- A validation failure determines `main`'s outcome. -/
theorem runMain_parse_error_eq (lib : Lib) (fs : FsEnv) (c : Cmdline)
    (raw : RawArgs) (msg : String)
    (h1 : argparse c = .ok raw) (h2 : parseArgsChecked raw = .error msg) :
    runMain lib fs c = .exited ⟨1, [], none, [pluginErrLine msg]⟩ := by
  simp only [runMain, h1, h2]

/-- `main` lets `SystemExit` through only for an invalid `--format` choice,
and then the propagated code is 2. -/
theorem runMain_sysExit_inv (lib : Lib) (fs : FsEnv) (c : Cmdline) (code : Nat)
    (h : runMain lib fs c = .sysExit code) :
    code = 2 ∧ c.format.getD "text" ∉ formatChoices := by
  unfold runMain at h
  rcases hA : argparse c with raw | k
  · simp only [hA] at h
    rcases hP : parseArgsChecked raw with msg | inp
    · simp only [hP] at h
      nomatch h
    · simp only [hP] at h
      rcases hB : buildChart lib fs inp with msg | pr
      · simp only [hB] at h
        nomatch h
      · simp only [hB] at h
        nomatch h
  · simp only [hA] at h
    cases h
    unfold argparse at hA
    by_cases hf : c.format.getD "text" ∈ formatChoices
    · rw [if_pos hf] at hA
      nomatch hA
    · rw [if_neg hf] at hA
      cases hA
      exact ⟨rfl, hf⟩

/-- Inversion for a successful `parse_args`: the namespace fields. -/
theorem argparse_ok_inv (c : Cmdline) (raw : RawArgs)
    (h : argparse c = .ok raw) :
    raw.format = c.format.getD "text" ∧ raw.format ∈ formatChoices ∧
    raw.house_system = c.house_system.getD "Placidus" ∧
    raw.tz = c.tz ∧ raw.ephe_path = c.ephe_path ∧
    raw.person = c.person ∧ raw.birth = c.birth ∧
    raw.lat = c.lat ∧ raw.lon = c.lon := by
  unfold argparse at h
  by_cases hf : c.format.getD "text" ∈ formatChoices
  · rw [if_pos hf] at h
    cases h
    exact ⟨rfl, hf, rfl, rfl, rfl, rfl, rfl, rfl, rfl⟩
  · rw [if_neg hf] at h
    nomatch h

/-- Inversion for a successful validation step: the input fields. -/
theorem parseArgsChecked_ok_inv (raw : RawArgs) (inp : PluginInput)
    (h : parseArgsChecked raw = .ok inp) :
    tzRegexMatch (pyStrip raw.tz) = true ∧
    inp.tz = pyStrip raw.tz ∧ inp.output_format = raw.format ∧
    inp.house_system = pyStrip raw.house_system ∧
    inp.person = pyStrip raw.person ∧ inp.birth = pyStrip raw.birth ∧
    inp.lat = raw.lat ∧ inp.lon = raw.lon ∧
    inp.ephe_path = (match raw.ephe_path with
      | some s => if s == "" then none else some (pyStrip s)
      | none => none) := by
  unfold parseArgsChecked at h
  by_cases htz : tzRegexMatch (pyStrip raw.tz) = true
  · rw [if_pos htz] at h
    cases h
    exact ⟨htz, rfl, rfl, rfl, rfl, rfl, rfl, rfl, rfl⟩
  · rw [if_neg htz] at h
    nomatch h

/-- A successful timezone check determines the validated input. -/
theorem parseArgsChecked_ok_of_tz (raw : RawArgs)
    (h : tzRegexMatch (pyStrip raw.tz) = true) :
    parseArgsChecked raw = .ok
      { person := pyStrip raw.person, birth := pyStrip raw.birth,
        tz := pyStrip raw.tz, lat := raw.lat, lon := raw.lon,
        house_system := pyStrip raw.house_system,
        ephe_path := match raw.ephe_path with
          | some s => if s == "" then none else some (pyStrip s)
          | none => none,
        output_format := raw.format } := by
  simp only [parseArgsChecked]
  rw [if_pos h]

/-- A failing timezone check determines the `ValueError`. -/
theorem parseArgsChecked_error_of_tz (raw : RawArgs)
    (h : tzRegexMatch (pyStrip raw.tz) = false) :
    parseArgsChecked raw = .error (tzErrorMsg (pyStrip raw.tz)) := by
  simp only [parseArgsChecked]
  rw [if_neg (by simp [h])]

/-- A digit is not a whitespace character. -/
theorem pyIsSpace_false_of_digit (c : Char) (h1 : '0' ≤ c) (h2 : c ≤ '9') :
    pyIsSpace c = false := by
  simp only [pyIsSpace, Bool.or_eq_false_iff, beq_eq_false_iff_ne, ne_eq]
  refine ⟨⟨⟨⟨⟨?_, ?_⟩, ?_⟩, ?_⟩, ?_⟩, ?_⟩ <;> rintro rfl <;> revert h1 h2 <;> decide

/-- A sequence matched by the core timezone pattern is exactly six
characters, starting with a sign and ending with a digit. -/
theorem tzCore_shape (l : List Char) (h : tzCore l = true) :
    ∃ sgn h1 h2 sep m1 m2, l = [sgn, h1, h2, sep, m1, m2] ∧
      (sgn == '+' || sgn == '-') = true ∧ isAsciiDigit m2 = true := by
  rcases l with _ | ⟨a, _ | ⟨b, _ | ⟨c, _ | ⟨d, _ | ⟨e, _ | ⟨f, _ | ⟨g, t⟩⟩⟩⟩⟩⟩⟩
  · simp [tzCore] at h
  · simp [tzCore] at h
  · simp [tzCore] at h
  · simp [tzCore] at h
  · simp [tzCore] at h
  · simp [tzCore] at h
  · simp only [tzCore, Bool.and_eq_true] at h
    exact ⟨a, b, c, d, e, f, rfl, h.1.1.1.1, h.2⟩
  · simp [tzCore] at h

/-- A string matched by the core timezone pattern has no surrounding
whitespace: stripping it is the identity. -/
theorem tzCore_strip_id (s : String) (h : tzCore s.data = true) :
    pyStrip s = s := by
  obtain ⟨l⟩ := s
  obtain ⟨sgn, h1, h2, sep, m1, m2, hl, hsgn, hm2⟩ := tzCore_shape l h
  subst hl
  have hsp1 : pyIsSpace sgn = false := by
    simp only [Bool.or_eq_true, beq_iff_eq] at hsgn
    rcases hsgn with rfl | rfl <;> decide
  have hdig : '0' ≤ m2 ∧ m2 ≤ '9' := by
    simpa [isAsciiDigit] using hm2
  have hsp2 : pyIsSpace m2 = false := pyIsSpace_false_of_digit m2 hdig.1 hdig.2
  simp [pyStrip, List.dropWhile, hsp1, hsp2]

/-! ### Claim C1 -/

/-- C1, counterexample: the raw value `" +02:00"` does NOT match
`^[+-](0\d|1\d|2[0-3]):[0-5]\d$`, yet the invocation is not rejected: the
pipeline completes with exit code 0 and nothing on standard error, because
`_parse_args` strips the value before matching.  This falsifies the claim
that every `--tz` value not matching the pattern is rejected with a
validation error, an error line and exit code 1. -/
theorem C1_counterexample :
    tzRegexMatch " +02:00" = false ∧
    ∃ r, runMain okLib fsNone cmdTzSpace = .exited r ∧
      r.exitCode = 0 ∧ r.stderrLines = [] :=
  ⟨by decide, ⟨_, rfl, rfl, rfl⟩⟩

/-- C1, amended: it is the STRIPPED `--tz` value that is checked against
the pattern.  When the stripped value fails to match, `main` — whatever the
library would do, i.e. before any chart computation — returns exit code 1
having printed exactly one error line to standard error and nothing to
standard output; when the stripped value matches, validation passes and the
validated input carries the stripped value. -/
theorem C1_tz_validation (lib : Lib) (fs : FsEnv) (c : Cmdline) (raw : RawArgs)
    (hargs : argparse c = .ok raw) :
    (tzRegexMatch (pyStrip raw.tz) = false →
      runMain lib fs c =
        .exited ⟨1, [], none, [pluginErrLine (tzErrorMsg (pyStrip raw.tz))]⟩) ∧
    (tzRegexMatch (pyStrip raw.tz) = true →
      ∃ inp, parseArgsChecked raw = .ok inp ∧ inp.tz = pyStrip raw.tz) := by
  constructor
  · intro hf
    exact runMain_parse_error_eq lib fs c raw _ hargs
      (parseArgsChecked_error_of_tz raw hf)
  · intro ht
    exact ⟨_, parseArgsChecked_ok_of_tz raw ht, rfl⟩

/-- C1, witness: `--tz oops` is rejected with one error line and exit
code 1, for any library behaviour. -/
theorem C1_witness :
    runMain okLib fsNone cmdTzBad =
      .exited ⟨1, [], none, [pluginErrLine (tzErrorMsg (pyStrip rawTzBad.tz))]⟩ :=
  (C1_tz_validation okLib fsNone cmdTzBad rawTzBad rfl).1 (by decide)

/-! ### Claim C2 -/

/-- C2, counterexample: with `--format xml` the argparse choice check calls
`parser.error`, raising `SystemExit(2)`; `except Exception` does not catch
`SystemExit`, so `main` propagates it to the caller and the process exits
with code 2 — not 1 — and without the single `[nataly plugin] Error:` line.
This falsifies both "on any raised error it returns exit code 1" and "main
never propagates an exception to the caller". -/
theorem C2_counterexample :
    runMain okLib fsNone cmdBadFormat = .sysExit 2 := rfl

/-- C2, amended: when `main` returns, it returns 0 (with empty standard
error) if the pipeline completed, and 1 with exactly one error line on
standard error (and no output) if an `Exception` was raised; but an invalid
`--format` choice makes argparse raise `SystemExit(2)`, which is not an
`Exception` and propagates through `main` uncaught. -/
theorem C2_exit_codes (lib : Lib) (fs : FsEnv) (c : Cmdline) :
    (∀ r, runMain lib fs c = .exited r →
      (r.exitCode = 0 ∧ r.stderrLines = []) ∨
      (r.exitCode = 1 ∧ r.stdoutText = [] ∧ r.stdoutJson = none ∧
        ∃ msg, r.stderrLines = [pluginErrLine msg])) ∧
    (∀ code, runMain lib fs c = .sysExit code →
      code = 2 ∧ c.format.getD "text" ∉ formatChoices) := by
  constructor
  · intro r hr
    rcases runMain_exited_inv lib fs c r hr with
      ⟨raw, msg, _, _, hres⟩ | ⟨raw, inp, msg, _, _, _, hres⟩ |
      ⟨raw, inp, chart, iso, _, _, _, hres⟩
    · exact Or.inr (by subst hres; exact ⟨rfl, rfl, rfl, msg, rfl⟩)
    · exact Or.inr (by subst hres; exact ⟨rfl, rfl, rfl, msg, rfl⟩)
    · exact Or.inl (by subst hres; exact ⟨rfl, rfl⟩)
  · exact fun code h => runMain_sysExit_inv lib fs c code h

/-- C2, witness: the amended theorem applied to the `--format xml`
invocation. -/
theorem C2_witness :
    2 = 2 ∧ cmdBadFormat.format.getD "text" ∉ formatChoices :=
  (C2_exit_codes okLib fsNone cmdBadFormat).2 2 rfl

/-! ### Claim C10 -/

/-- C10: `--tz` is stripped before validation: whenever the stripped form
matches the pattern the invocation is accepted (and the validated input
carries the stripped value), and whenever the raw value differs from its
stripped form the raw value itself does not match the core pattern. -/
theorem C10_tz_stripped (raw : RawArgs)
    (h : tzRegexMatch (pyStrip raw.tz) = true) :
    (∃ inp, parseArgsChecked raw = .ok inp ∧ inp.tz = pyStrip raw.tz) ∧
    (raw.tz ≠ pyStrip raw.tz → tzCore raw.tz.data = false) := by
  constructor
  · exact ⟨_, parseArgsChecked_ok_of_tz raw h, rfl⟩
  · intro hne
    by_contra hcontra
    rw [Bool.not_eq_false] at hcontra
    exact hne (tzCore_strip_id raw.tz hcontra).symm

/-- C10, witness: `--tz "  +02:00  "` is accepted with the stripped value,
though the raw value does not match the pattern. -/
theorem C10_witness :
    (∃ inp, parseArgsChecked rawTzPad = .ok inp ∧ inp.tz = pyStrip rawTzPad.tz) ∧
    (rawTzPad.tz ≠ pyStrip rawTzPad.tz → tzCore rawTzPad.tz.data = false) :=
  C10_tz_stripped rawTzPad (by decide)

/-! ### Claim C3 -/

/-- C3: whenever `main` emits a JSON payload, that payload is the
serialisation of the summary record and has exactly the documented fields
in order: person, `dt_utc_iso`, location (with `lat` and `lon`), optional
sun, optional moon, the full aspect list, the element and modality
distributions, and the house list. -/
theorem C3_json_shape (lib : Lib) (fs : FsEnv) (c : Cmdline) (r : MainResult)
    (j : Json) (hrun : runMain lib fs c = .exited r)
    (hjson : r.stdoutJson = some j) :
    jsonKeys j = ["person", "dt_utc_iso", "location", "sun", "moon", "aspects",
      "element_distribution", "modality_distribution", "houses"] ∧
    ∃ s : ChartSummaryOut, j = toJsonable s ∧
      jsonField j "person" = some (.str s.person) ∧
      jsonField j "dt_utc_iso" = some (.str s.dt_utc_iso) ∧
      jsonField j "location" =
        some (.obj [("lat", .num s.location.lat), ("lon", .num s.location.lon)]) ∧
      jsonField j "sun" = some (optBodyToJson s.sun) ∧
      jsonField j "moon" = some (optBodyToJson s.moon) ∧
      jsonField j "aspects" = some (.arr (s.aspects.map aspectOutToJson)) ∧
      jsonField j "element_distribution" = some (pyValToJson s.element_distribution) ∧
      jsonField j "modality_distribution" = some (pyValToJson s.modality_distribution) ∧
      jsonField j "houses" = some (.arr (s.houses.map houseOutToJson)) := by
  rcases runMain_exited_inv lib fs c r hrun with
    ⟨_, _, _, _, hres⟩ | ⟨_, _, _, _, _, _, hres⟩ |
    ⟨raw, inp, chart, iso, _, _, _, hres⟩
  · subst hres; simp at hjson
  · subst hres; simp at hjson
  · subst hres
    by_cases hfmt : (inp.output_format == "json" || inp.output_format == "both") = true
    · dsimp only at hjson
      rw [if_pos hfmt] at hjson
      cases hjson
      exact ⟨rfl, toSummary chart inp iso, rfl, rfl, rfl, rfl, rfl, rfl, rfl,
        rfl, rfl, rfl⟩
    · dsimp only at hjson
      rw [if_neg hfmt] at hjson
      simp at hjson

/-- C3, witness: the sample JSON invocation emits exactly the documented
fields. -/
theorem C3_witness :
    jsonKeys (toJsonable sampleSummary) =
      ["person", "dt_utc_iso", "location", "sun", "moon", "aspects",
       "element_distribution", "modality_distribution", "houses"] ∧
    ∃ s : ChartSummaryOut, toJsonable sampleSummary = toJsonable s ∧
      jsonField (toJsonable sampleSummary) "person" = some (.str s.person) ∧
      jsonField (toJsonable sampleSummary) "dt_utc_iso" = some (.str s.dt_utc_iso) ∧
      jsonField (toJsonable sampleSummary) "location" =
        some (.obj [("lat", .num s.location.lat), ("lon", .num s.location.lon)]) ∧
      jsonField (toJsonable sampleSummary) "sun" = some (optBodyToJson s.sun) ∧
      jsonField (toJsonable sampleSummary) "moon" = some (optBodyToJson s.moon) ∧
      jsonField (toJsonable sampleSummary) "aspects" =
        some (.arr (s.aspects.map aspectOutToJson)) ∧
      jsonField (toJsonable sampleSummary) "element_distribution" =
        some (pyValToJson s.element_distribution) ∧
      jsonField (toJsonable sampleSummary) "modality_distribution" =
        some (pyValToJson s.modality_distribution) ∧
      jsonField (toJsonable sampleSummary) "houses" =
        some (.arr (s.houses.map houseOutToJson)) :=
  C3_json_shape sampleLib fsNone cmdOkJson
    ⟨0, [], some (toJsonable sampleSummary), []⟩ (toJsonable sampleSummary) rfl rfl

/-! ### Claim C4 -/

/-- C4: with `--format both`, a successful run prints text and JSON derived
from one and the same summary record, and each documented datum (person,
UTC time, location, sun/moon placements, distributions, aspects, houses)
appears in both renderings as a function of that shared record. -/
theorem C4_text_json_consistent (lib : Lib) (fs : FsEnv) (c : Cmdline)
    (r : MainResult) (hfmt : c.format = some "both")
    (hrun : runMain lib fs c = .exited r) (hok : r.exitCode = 0) :
    ∃ s, r.stdoutText = renderText s ∧ r.stdoutJson = some (toJsonable s) ∧
      (renderText s)[0]? = some ("Person: " ++ s.person) ∧
      jsonField (toJsonable s) "person" = some (.str s.person) ∧
      (renderText s)[1]? = some ("UTC:    " ++ s.dt_utc_iso) ∧
      jsonField (toJsonable s) "dt_utc_iso" = some (.str s.dt_utc_iso) ∧
      (renderText s)[2]? =
        some ("Loc:    lat=" ++ fmtRat s.location.lat ++ ", lon=" ++ fmtRat s.location.lon) ∧
      jsonField (toJsonable s) "location" =
        some (.obj [("lat", .num s.location.lat), ("lon", .num s.location.lon)]) ∧
      textBodySection s = bodyTextLines "Sun:  " s.sun ++ bodyTextLines "Moon: " s.moon ∧
      jsonField (toJsonable s) "sun" = some (optBodyToJson s.sun) ∧
      jsonField (toJsonable s) "moon" = some (optBodyToJson s.moon) ∧
      textDistSection s = ["", "Distributions",
        printDistLine "element" s.element_distribution,
        printDistLine "modality" s.modality_distribution] ∧
      jsonField (toJsonable s) "element_distribution" =
        some (pyValToJson s.element_distribution) ∧
      jsonField (toJsonable s) "modality_distribution" =
        some (pyValToJson s.modality_distribution) ∧
      textAspectSection s = ["", "Aspects"] ++ (s.aspects.take 50).map fmtAspectLine ∧
      jsonField (toJsonable s) "aspects" = some (.arr (s.aspects.map aspectOutToJson)) ∧
      textHouseSection s = ["", "Houses"] ++ s.houses.map fmtHouseLine ∧
      jsonField (toJsonable s) "houses" = some (.arr (s.houses.map houseOutToJson)) := by
  rcases runMain_exited_inv lib fs c r hrun with
    ⟨_, _, _, _, hres⟩ | ⟨_, _, _, _, _, _, hres⟩ |
    ⟨raw, inp, chart, iso, hA, hP, hB, hres⟩
  · subst hres; simp at hok
  · subst hres; simp at hok
  · have hfm := (argparse_ok_inv c raw hA).1
    rw [hfmt] at hfm
    simp only [Option.getD_some] at hfm
    have hout := (parseArgsChecked_ok_inv raw inp hP).2.2.1
    have hboth : inp.output_format = "both" := by rw [hout, hfm]
    subst hres
    refine ⟨toSummary chart inp iso, ?_, ?_, rfl, rfl, rfl, rfl, rfl, rfl, rfl,
      rfl, rfl, rfl, rfl, rfl, rfl, rfl, rfl, rfl⟩
    · simp [hboth]
    · simp [hboth]

/-- C4, witness: the sample `--format both` invocation. -/
theorem C4_witness :
    ∃ s, renderText sampleSummary = renderText s ∧
      some (toJsonable sampleSummary) = some (toJsonable s) ∧
      (renderText s)[0]? = some ("Person: " ++ s.person) ∧
      jsonField (toJsonable s) "person" = some (.str s.person) ∧
      (renderText s)[1]? = some ("UTC:    " ++ s.dt_utc_iso) ∧
      jsonField (toJsonable s) "dt_utc_iso" = some (.str s.dt_utc_iso) ∧
      (renderText s)[2]? =
        some ("Loc:    lat=" ++ fmtRat s.location.lat ++ ", lon=" ++ fmtRat s.location.lon) ∧
      jsonField (toJsonable s) "location" =
        some (.obj [("lat", .num s.location.lat), ("lon", .num s.location.lon)]) ∧
      textBodySection s = bodyTextLines "Sun:  " s.sun ++ bodyTextLines "Moon: " s.moon ∧
      jsonField (toJsonable s) "sun" = some (optBodyToJson s.sun) ∧
      jsonField (toJsonable s) "moon" = some (optBodyToJson s.moon) ∧
      textDistSection s = ["", "Distributions",
        printDistLine "element" s.element_distribution,
        printDistLine "modality" s.modality_distribution] ∧
      jsonField (toJsonable s) "element_distribution" =
        some (pyValToJson s.element_distribution) ∧
      jsonField (toJsonable s) "modality_distribution" =
        some (pyValToJson s.modality_distribution) ∧
      textAspectSection s = ["", "Aspects"] ++ (s.aspects.take 50).map fmtAspectLine ∧
      jsonField (toJsonable s) "aspects" = some (.arr (s.aspects.map aspectOutToJson)) ∧
      textHouseSection s = ["", "Houses"] ++ s.houses.map fmtHouseLine ∧
      jsonField (toJsonable s) "houses" = some (.arr (s.houses.map houseOutToJson)) :=
  C4_text_json_consistent sampleLib fsNone cmdOkBoth
    ⟨0, renderText sampleSummary, some (toJsonable sampleSummary), []⟩ rfl rfl rfl

/-! ### Claim C5 -/

/-- C5, counterexample: with a chart that cannot supply any body, the run
is NOT reported as an error: it completes with exit code 0, nothing on
standard error, and a JSON payload whose `sun` field is `null`.  This
falsifies the claim that a missing body is reported as a single error line
with exit code 1. -/
theorem C5_counterexample :
    emptyChart.getBody "Sun" = none ∧
    ∃ r, runMain noBodyLib fsNone cmdOkJson = .exited r ∧
      r.exitCode = 0 ∧ r.stderrLines = [] ∧
      ∃ j, r.stdoutJson = some j ∧ jsonField j "sun" = some Json.null :=
  ⟨rfl, ⟨_, rfl, rfl, rfl, _, rfl, rfl⟩⟩

/-- C5, amended: a missing body is tolerated, not fatal: `_safe_get_body`
catches the lookup exception and returns `None`, the summary's sun/moon
placements are exactly those (possibly `None`) lookups, and an otherwise
successful pipeline still finishes with exit code 0 and an empty standard
error. -/
theorem C5_missing_body_tolerated (lib : Lib) (fs : FsEnv) (c : Cmdline)
    (raw : RawArgs) (inp : PluginInput) (chart : NatalChartM) (iso : String)
    (name : String)
    (h1 : argparse c = .ok raw) (h2 : parseArgsChecked raw = .ok inp)
    (h3 : buildChart lib fs inp = .ok (chart, iso))
    (h4 : chart.getBody name = none) :
    safeGetBody chart name = none ∧
    (toSummary chart inp iso).sun = safeGetBody chart "Sun" ∧
    (toSummary chart inp iso).moon = safeGetBody chart "Moon" ∧
    ∃ r, runMain lib fs c = .exited r ∧ r.exitCode = 0 ∧ r.stderrLines = [] := by
  refine ⟨?_, rfl, rfl, ?_⟩
  · unfold safeGetBody
    rw [h4]
  · exact ⟨_, runMain_success_eq lib fs c raw inp chart iso h1 h2 h3, rfl, rfl⟩

/-- C5, witness: the body-less chart, concretely. -/
theorem C5_witness :
    safeGetBody emptyChart "Sun" = none ∧
    (toSummary emptyChart inpOkJson isoSample).sun = safeGetBody emptyChart "Sun" ∧
    (toSummary emptyChart inpOkJson isoSample).moon = safeGetBody emptyChart "Moon" ∧
    ∃ r, runMain noBodyLib fsNone cmdOkJson = .exited r ∧
      r.exitCode = 0 ∧ r.stderrLines = [] :=
  C5_missing_body_tolerated noBodyLib fsNone cmdOkJson rawOkJson inpOkJson
    emptyChart isoSample "Sun" rfl rfl rfl rfl

/-! ### Claim C6 -/

/-- C6, counterexample: a present but whitespace-only `--ephe-path` is
normalised to the empty string by `_parse_args` and, being falsy, is NOT
used: with `NATALY_EPHE_PATH=/env/ephe` set, the path actually passed to
the chart constructor is `/env/ephe`, not the given argument.  This
falsifies the claim that the `--ephe-path` argument wins whenever it is
present. -/
theorem C6_counterexample :
    parseArgsChecked rawBlankEphe = .ok inpBlankEphe ∧
    inpBlankEphe.ephe_path = some "" ∧
    resolveEphePath fsWithEnv inpBlankEphe.ephe_path = some "/env/ephe" ∧
    buildChart epheEchoLib fsWithEnv inpBlankEphe = .error "/env/ephe" :=
  ⟨rfl, rfl, rfl, rfl⟩

/-- C6, amended: the ephemeris path priority is: the `--ephe-path` argument
when present AND non-empty after normalisation; otherwise the
`NATALY_EPHE_PATH` variable when set and non-blank (stripped); otherwise
the local `ephe` directory when it exists, else no path at all. -/
theorem C6_ephe_priority (fs : FsEnv) (e : Option String) :
    (∀ s, e = some s → s ≠ "" → resolveEphePath fs e = some s) ∧
    ((e = none ∨ e = some "") →
      (∀ v, fs.natalyEphePathVar = some v → pyStrip v ≠ "" →
        resolveEphePath fs e = some (pyStrip v)) ∧
      ((fs.natalyEphePathVar = none ∨
        ∃ v, fs.natalyEphePathVar = some v ∧ pyStrip v = "") →
        resolveEphePath fs e =
          if fs.epheDirIsDir then some fs.epheDirStr else none)) := by
  constructor
  · rintro s rfl hs
    simp [resolveEphePath, hs]
  · intro he
    have hfb : resolveEphePath fs e = resolveEpheFallback fs := by
      rcases he with rfl | rfl
      · rfl
      · simp [resolveEphePath]
    constructor
    · rintro v hv hnv
      have hv' : v ≠ "" := by
        intro hveq
        apply hnv
        rw [hveq]
        rfl
      rw [hfb]
      simp only [resolveEpheFallback, hv]
      rw [if_pos (show v ≠ "" ∧ pyStrip v ≠ "" from ⟨hv', hnv⟩)]
    · rintro (hn | ⟨v, hv, hpv⟩)
      · rw [hfb]
        simp only [resolveEpheFallback, hn]
      · rw [hfb]
        simp only [resolveEpheFallback, hv]
        rw [if_neg (show ¬(v ≠ "" ∧ pyStrip v ≠ "") from fun hc => hc.2 hpv)]

/-- C6, witness: a blank explicit argument with a padded environment value
resolves to the stripped environment value. -/
theorem C6_witness :
    resolveEphePath fsPadEnv (some "") = some (pyStrip "  /w  ") :=
  ((C6_ephe_priority fsPadEnv (some "")).2 (Or.inr rfl)).1 "  /w  " rfl (by decide)

/-! ### Claim C7 -/

/-- C7: omitting `--house-system` makes the namespace carry `"Placidus"`,
the validated input carry `"Placidus"`, and the orb-configuration
constructor receive exactly `"Placidus"` (observed through a library that
echoes its argument); and `--format` admits only `text`, `json`, `both`:
any other supplied value is rejected during argument parsing, and every
accepted namespace carries one of the three choices. -/
theorem C7_house_default_and_format_choices (c : Cmdline) :
    (c.house_system = none →
      ∀ raw, argparse c = .ok raw →
        raw.house_system = "Placidus" ∧
        ∀ inp, parseArgsChecked raw = .ok inp →
          inp.house_system = "Placidus" ∧
          ∀ fs, buildChart orbEchoLib fs inp = .error "Placidus") ∧
    (∀ f, c.format = some f → f ∉ formatChoices → argparse c = .sysExit 2) ∧
    (∀ raw, argparse c = .ok raw → raw.format ∈ formatChoices) := by
  refine ⟨?_, ?_, ?_⟩
  · intro hhs raw hraw
    have h1 := (argparse_ok_inv c raw hraw).2.2.1
    rw [hhs] at h1
    simp only [Option.getD_none] at h1
    refine ⟨h1, ?_⟩
    intro inp hinp
    have h2 := (parseArgsChecked_ok_inv raw inp hinp).2.2.2.1
    rw [h1] at h2
    have h3 : inp.house_system = "Placidus" := by
      rw [h2]
      decide
    refine ⟨h3, ?_⟩
    intro fs
    simp [buildChart, orbEchoLib, h3]
  · intro f hf hnf
    unfold argparse
    rw [hf]
    simp only [Option.getD_some]
    rw [if_neg hnf]
  · intro raw hraw
    exact (argparse_ok_inv c raw hraw).2.1

/-- C7, witness: the sample invocation omits `--house-system` and asks for
`json`; Placidus reaches the orb-configuration constructor. -/
theorem C7_witness :
    rawOkJson.house_system = "Placidus" ∧
    inpOkJson.house_system = "Placidus" ∧
    buildChart orbEchoLib fsNone inpOkJson = .error "Placidus" := by
  have h := (C7_house_default_and_format_choices cmdOkJson).1 rfl rawOkJson rfl
  exact ⟨h.1, (h.2 inpOkJson rfl).1, (h.2 inpOkJson rfl).2 fsNone⟩

/-! ### Claim C9 -/

/-- C9: the text rendering prints at most the first 50 aspects, in order,
while the JSON payload carries the entire aspect list; with more than 50
aspects the text section is strictly shorter than the aspect list the JSON
includes. -/
theorem C9_aspect_truncation (s : ChartSummaryOut) :
    renderText s = textHeader s ++ textBodySection s ++ textDistSection s ++
      textAspectSection s ++ textHouseSection s ∧
    textAspectSection s = ["", "Aspects"] ++ (s.aspects.take 50).map fmtAspectLine ∧
    jsonField (toJsonable s) "aspects" = some (.arr (s.aspects.map aspectOutToJson)) ∧
    (s.aspects.map aspectOutToJson).length = s.aspects.length ∧
    (50 < s.aspects.length →
      ((s.aspects.take 50).map fmtAspectLine).length < s.aspects.length) := by
  refine ⟨rfl, rfl, rfl, by simp, ?_⟩
  intro h
  rw [List.length_map, List.length_take]
  exact lt_of_le_of_lt (min_le_left 50 _) h

/-- C9, witness: a summary with 51 aspects has a strictly shorter text
aspect section. -/
theorem C9_witness :
    ((summary51.aspects.take 50).map fmtAspectLine).length <
      summary51.aspects.length :=
  (C9_aspect_truncation summary51).2.2.2.2 (by simp [summary51])
